import Mathlib

/-!
Verification development for the ADEME publication harvester
(streamlit_app-4.py, the `ShadowMassPDFHarvester` class, and the
`ADEMEHarvester` variant of streamlit_app-5.py).

The Python code is shallowly embedded: Python strings become `String`,
byte strings become `List Nat` (one byte per entry), JSON-like Python
values become the inductive `PyVal`, the SQLite table `harvested_pdfs`
becomes a list of `HarvestRecord` with INSERT OR REPLACE semantics, and
side effects (file writes, warnings, set mutation) become explicit
fields of result structures.  External library functions that the
claims only mention but never compute with (`urljoin`, `hashlib.md5`,
the HTTP fetch) are taken as function parameters.  `urllib.parse.urlparse`
is modelled directly, including the ValueError it raises on a network
location with a mismatched square bracket (modelled as `Option.none`).
-/

/-! ## Python string primitives -/

/-- Whitespace characters removed by the Python `str.strip()` method
(ASCII whitespace; exotic Unicode space code points are not modelled,
no input in this development contains them). -/
def pySpace (c : Char) : Bool :=
  c == ' ' || c == '\t' || c == '\n' || c == '\r' || c == '\x0b' || c == '\x0c'

/-- Python `str.strip()`: drop leading and trailing whitespace. -/
def pyStrip (s : String) : String :=
  ⟨((s.data.dropWhile pySpace).reverse.dropWhile pySpace).reverse⟩

/-- Python `str.lower()`. `Char.toLower` lowercases ASCII letters; the
non-ASCII one-to-many lowerings of Python are not modelled (they cannot
produce any character of ".pdf", the only suffix compared here). -/
def pyLower (s : String) : String :=
  ⟨s.data.map Char.toLower⟩

/-- Python substring test `sub in s`. -/
def pyIn (sub s : String) : Bool :=
  decide (sub.data <:+: s.data)

/-- Python `s.startswith(pre)`. -/
def pyStartsWith (s pre : String) : Bool :=
  decide (pre.data <+: s.data)

/-- Python `s.endswith(post)`. -/
def pyEndsWith (s post : String) : Bool :=
  decide (post.data <:+ s.data)

/-! ## Model of `urllib.parse.urlparse`

Follows the CPython implementation of `urlsplit`/`urlparse`: optional
scheme split at the first colon (when the candidate scheme starts with
an ASCII letter and consists of scheme characters), network location
after a leading "//" up to the next "/", "?" or "#", fragment split at
the first "#", query split at the first "?", and parameter split at a
";" in the last path segment for schemes that use parameters.  The
ValueError raised for a network location containing "[" without "]"
(or vice versa) is modelled by returning `none`.  The WHATWG control
character stripping of very recent CPython versions is not modelled. -/

/-- Characters allowed in a URL scheme (CPython `scheme_chars`). -/
def schemeChars (c : Char) : Bool :=
  c.isAlphanum || c == '+' || c == '-' || c == '.'

/-- Split off `scheme:` when present and well formed, lowercasing the
scheme; otherwise the scheme is empty and the input is returned whole. -/
def splitScheme (url : List Char) : List Char × List Char :=
  let pre := url.takeWhile (fun c => c != ':')
  if pre.length = url.length then ([], url)
  else if h : pre ≠ [] then
    if (pre.head h).isAlpha && pre.all schemeChars then
      (pre.map Char.toLower, url.drop (pre.length + 1))
    else ([], url)
  else ([], url)

/-- Split a character list at the first occurrence of `c`; when `c`
does not occur the second component is empty (Python `split(c, 1)`). -/
def splitOnceChar (c : Char) (l : List Char) : List Char × List Char :=
  let pre := l.takeWhile (fun x => x != c)
  if pre.length = l.length then (l, []) else (pre, l.drop (pre.length + 1))

/-- True on characters that terminate the network location. -/
def netlocEnd (c : Char) : Bool :=
  c == '/' || c == '?' || c == '#'

/-- Scheme and network location extraction shared by the parser and by
the exception characterization: returns (scheme, netloc, remainder). -/
def splitSchemeNetloc (url : List Char) : List Char × List Char × List Char :=
  let sr := splitScheme url
  if sr.2.take 2 = ['/', '/'] then
    let nr := (sr.2.drop 2).span (fun c => !netlocEnd c)
    (sr.1, nr.1, nr.2)
  else (sr.1, [], sr.2)

/-- The mismatched-bracket condition on which CPython urlsplit raises
ValueError ("Invalid IPv6 URL"). -/
def bracketMismatch (netloc : List Char) : Bool :=
  netloc.contains '[' != netloc.contains ']'

/-- The network location that urlsplit would compute for a string
(used to characterize when parsing raises). -/
def netlocOf (s : String) : List Char :=
  (splitSchemeNetloc s.data).2.1

/-- Result record of `urlparse`. -/
structure ParseResult where
  scheme : String
  netloc : String
  path : String
  params : String
  query : String
  fragment : String
deriving Repr, DecidableEq

/-- CPython `urlsplit`; `none` models the ValueError on a mismatched
square bracket in the network location. -/
def urlsplitOpt (s : String) : Option ParseResult :=
  let snr := splitSchemeNetloc s.data
  if bracketMismatch snr.2.1 then none
  else
    let fr := splitOnceChar '#' snr.2.2
    let pq := splitOnceChar '?' fr.1
    some { scheme := ⟨snr.1⟩, netloc := ⟨snr.2.1⟩, path := ⟨pq.1⟩,
           params := "", query := ⟨pq.2⟩, fragment := ⟨fr.2⟩ }

/-- Schemes for which urlparse splits parameters (CPython `uses_params`,
restricted to membership testing). -/
def usesParams (scheme : String) : Bool :=
  ["", "ftp", "hdl", "prospero", "http", "imap", "https", "shttp", "rtsp",
   "rtspu", "sip", "sips", "mms", "sftp", "tel"].contains scheme

/-- CPython `_splitparams`: split the path at a ";" occurring in the
last path segment. -/
def splitParams (url : List Char) : List Char × List Char :=
  if url.contains '/' then
    let segLen := (url.reverse.takeWhile (fun c => c != '/')).length
    let segStart := url.length - segLen
    let seg := url.drop segStart
    if seg.contains ';' then
      let ab := splitOnceChar ';' seg
      (url.take segStart ++ ab.1, ab.2)
    else (url, [])
  else splitOnceChar ';' url

/-- CPython `urlparse`: urlsplit followed by parameter splitting. -/
def urlparseOpt (s : String) : Option ParseResult :=
  match urlsplitOpt s with
  | none => none
  | some r =>
    if usesParams r.scheme && r.path.data.contains ';' then
      let pp := splitParams r.path.data
      some { r with path := ⟨pp.1⟩, params := ⟨pp.2⟩ }
    else some r

/-! ## Python values (arguments that may be non-strings, parsed JSON) -/

/-- JSON-like Python runtime values. -/
inductive PyVal where
  | none : PyVal
  | bool : Bool → PyVal
  | int : Int → PyVal
  | str : String → PyVal
  | list : List PyVal → PyVal
  | dict : List (String × PyVal) → PyVal

/-- Python truthiness. -/
def PyVal.truthy : PyVal → Bool
  | .none => false
  | .bool b => b
  | .int n => n != 0
  | .str s => s != ""
  | .list xs => !xs.isEmpty
  | .dict kvs => !kvs.isEmpty

/-- Whether a value is a Python string (`isinstance(v, str)`). -/
def PyVal.isStr : PyVal → Bool
  | .str _ => true
  | _ => false

/-- Whether a value is a Python mapping (`isinstance(v, dict)`). -/
def PyVal.isDict : PyVal → Bool
  | .dict _ => true
  | _ => false

/-- Python `dict.get`: dictionaries produced by `json.loads` keep the
last occurrence of a duplicated key, hence the reversed search. -/
def dictGet (kvs : List (String × PyVal)) (k : String) : Option PyVal :=
  (kvs.reverse.find? (fun kv => kv.fst == k)).map (fun kv => kv.snd)

/-! ## The URL classifiers -/

/-- The harvester classifier `_is_pdf_link` of streamlit_app-4.py
(lines 236-250).  A non-string argument yields `some false` through the
isinstance guard; `none` models the ValueError that `urlparse` raises
inside the extension branch. -/
def _is_pdf_link (href : PyVal) : Option Bool :=
  match href with
  | PyVal.str s0 =>
    let href := pyStrip s0
    if pyIn "controller=attachment" href && pyIn "id_attachment=" href then
      some true
    else if pyStartsWith href "http" || pyStartsWith href "/" then
      match urlparseOpt href with
      | Option.none => Option.none
      | some parsed =>
        some (pyEndsWith (pyLower parsed.path) ".pdf"
              || pyIn ".pdf" (pyLower parsed.query))
    else some false
  | _ => some false

/-- The detective-variant classifier `is_pdf_url` of streamlit_app-5.py
(lines 165-172): any of four indicator substrings in the lowercased
path accepts.  `none` models the urlparse ValueError. -/
def is_pdf_url (url : String) : Option Bool :=
  match urlparseOpt url with
  | Option.none => Option.none
  | some parsed =>
    let path := pyLower parsed.path
    some ([".pdf", "/pdf", "download", "attachment"].any (fun ind => pyIn ind path))

/-! ## Signature validation and download (`_download_pdf_advanced`)

streamlit_app-4.py lines 252-284.  The function generates a filename,
fetches the URL, rejects bytes that do not start with the 4-byte PDF
magic header (nothing written), writes the file, then rejects files of
size below 1000 bytes (the written file is removed).  The outcome is
modelled as an inductive carrying the generated filename; the two
rejection constructors mirror the two distinct warning messages the
code emits ("Non-PDF detecte" and "Fichier trop petit"). -/

/-- The byte sequence of the PDF magic header "%PDF". -/
def pdfMagic : List Nat := [37, 80, 68, 70]

/-- The title sanitization of line 255:
`re.sub(..., title).strip() or "document"`, keeping word characters,
hyphen, dot and space (the regex class `[^\w\-. ]` is removed; only
ASCII word characters are modelled). -/
def sanitizeTitle (title : String) : String :=
  let kept : List Char :=
    title.data.filter (fun c => c.isAlphanum || c == '_' || c == '-' || c == '.' || c == ' ')
  let s := pyStrip ⟨kept⟩
  if s == "" then "document" else s

/-- `os.path.basename` on a POSIX path: the part after the last slash. -/
def basename (p : String) : String :=
  ⟨(p.data.reverse.takeWhile (fun c => c != '/')).reverse⟩

/-- Filename generation of lines 254-258; `now` stands for
`int(time.time())`.  `none` models the ValueError that `urlparse`
raises on the fallback branch (propagated to the enclosing handler). -/
def genFilename (pdf_url title : String) (now : Nat) : Option String :=
  if title != "" then
    some (sanitizeTitle title ++ "_" ++ toString now ++ ".pdf")
  else
    match urlparseOpt pdf_url with
    | Option.none => Option.none
    | some parsed =>
      let b := basename parsed.path
      some (if b != "" then b else "document_" ++ toString now ++ ".pdf")

/-- Outcome of `_download_pdf_advanced`.  `success` and the two
rejection constructors carry the generated filename; `error` covers the
exception path of the enclosing try (network failure, or a ValueError
during filename generation), which returns False. -/
inductive DownloadResult where
  | success : String → DownloadResult
  | rejectedNonPdf : String → DownloadResult
  | rejectedTooSmall : String → DownloadResult
  | error : DownloadResult
deriving Repr, DecidableEq

/-- The boolean the Python function returns. -/
def DownloadResult.ok : DownloadResult → Bool
  | .success _ => true
  | _ => false

/-- The file left on disk after the call: only a success leaves one
(the magic-header rejection happens before the write; the size
rejection removes the written file on line 278). -/
def DownloadResult.fileOnDisk : DownloadResult → Option String
  | .success f => some f
  | _ => Option.none

/-- `_download_pdf_advanced` (lines 252-284).  `fetch` abstracts the
HTTP GET of the session: `some content` is a success response body,
`none` a network error or non-success status (raised and caught). -/
def _download_pdf_advanced (fetch : String → Option (List Nat))
    (pdf_url title : String) (now : Nat) : DownloadResult :=
  match genFilename pdf_url title now with
  | Option.none => DownloadResult.error
  | some filename =>
    match fetch pdf_url with
    | Option.none => DownloadResult.error
    | some content =>
      if !decide (pdfMagic <+: content) then DownloadResult.rejectedNonPdf filename
      else if content.length < 1000 then DownloadResult.rejectedTooSmall filename
      else DownloadResult.success filename

/-! ## Persistence store (`init_database`, `_log_to_database`) -/

/-- One row of the `harvested_pdfs` table (init_database, lines 59-77;
the autoincrement id plays no role and is not modelled).  `url` is the
UNIQUE key. -/
structure HarvestRecord where
  url : String
  filename : String
  file_size : Nat
  file_hash : String
  source_feed : String
  harvest_date : Nat
  status : String
  article_title : String
  article_url : String
deriving Repr, DecidableEq

/-- SQLite INSERT OR REPLACE on a UNIQUE `url` column: every row with
the same url is deleted, then the new row is inserted. -/
def upsert (db : List HarvestRecord) (r : HarvestRecord) : List HarvestRecord :=
  db.filter (fun q => q.url != r.url) ++ [r]

/-- `_log_to_database` (lines 286-298): builds the row and upserts it.
Note the value bound to the `filename` column is the raw article title,
and `file_size` is the literal 0; `md5` abstracts
`hashlib.md5(pdf_url.encode()).hexdigest()` and `now` the timestamp. -/
def _log_to_database (md5 : String → String) (db : List HarvestRecord)
    (pdf_url title article_url status : String) (now : Nat) : List HarvestRecord :=
  upsert db
    { url := pdf_url, filename := title, file_size := 0,
      file_hash := md5 pdf_url, source_feed := "streamlit_app",
      harvest_date := now, status := status,
      article_title := title, article_url := article_url }

/-! ## The per-candidate step of `scan_url_for_pdfs` (lines 104-114) -/

/-- Mutable state touched by one candidate iteration of the download
loop: the two in-run URL sets, the database, the list of URLs returned
by the scan, and (as instrumentation) the URLs for which a download
was attempted, i.e. for which `_download_pdf_advanced` was entered. -/
structure ScanState where
  downloaded_urls : List String
  failed_urls : List String
  db : List HarvestRecord
  downloaded : List String
  attempted : List String
deriving Repr, DecidableEq

/-- One iteration of the loop body of lines 105-114: the candidate is
skipped exactly when it is in `downloaded_urls`; otherwise the download
is attempted and the outcome logged as success or failed. -/
def processCandidate (fetch : String → Option (List Nat)) (md5 : String → String)
    (title article_url : String) (now : Nat)
    (st : ScanState) (pdf_url : String) : ScanState :=
  if pdf_url ∈ st.downloaded_urls then st
  else if (_download_pdf_advanced fetch pdf_url title now).ok then
    { st with
      attempted := st.attempted ++ [pdf_url],
      downloaded_urls := st.downloaded_urls ++ [pdf_url],
      downloaded := st.downloaded ++ [pdf_url],
      db := _log_to_database md5 st.db pdf_url title article_url "success" now }
  else
    { st with
      attempted := st.attempted ++ [pdf_url],
      failed_urls := st.failed_urls ++ [pdf_url],
      db := _log_to_database md5 st.db pdf_url title article_url "failed" now }

/-! ## Structured-data scan (`_find_pdf_in_json`, lines 223-234)

The walker recurses into mapping values and list items.  A mapping
value that is a string containing ".pdf" (lowercased) is joined against
the base URL and collected; any other value is recursed into — note
that recursing into a bare string (a list item, or the root) falls
through to the catch-all and produces nothing.  `join` abstracts
`urllib.parse.urljoin`.  The Python set union is modelled by list
append; the claims are about membership. -/

mutual

def _find_pdf_in_json (join : String → String → String) (base : String) :
    PyVal → List String
  | PyVal.dict kvs => _find_pdf_in_json_pairs join base kvs
  | PyVal.list xs => _find_pdf_in_json_items join base xs
  | _ => []

def _find_pdf_in_json_pairs (join : String → String → String) (base : String) :
    List (String × PyVal) → List String
  | [] => []
  | (_, PyVal.str s) :: rest =>
    (if pyIn ".pdf" (pyLower s) then [join base s]
     else _find_pdf_in_json join base (PyVal.str s))
    ++ _find_pdf_in_json_pairs join base rest
  | (_, v) :: rest =>
    _find_pdf_in_json join base v ++ _find_pdf_in_json_pairs join base rest

def _find_pdf_in_json_items (join : String → String → String) (base : String) :
    List PyVal → List String
  | [] => []
  | v :: rest =>
    _find_pdf_in_json join base v ++ _find_pdf_in_json_items join base rest

end

/-! All string leaves of a JSON-like value, reached through mapping
values and list items (the notion of leaf used by the claim about the
structured-data scan). -/

mutual

def stringLeaves : PyVal → List String
  | PyVal.str s => [s]
  | PyVal.dict kvs => stringLeavesPairs kvs
  | PyVal.list xs => stringLeavesItems xs
  | _ => []

def stringLeavesPairs : List (String × PyVal) → List String
  | [] => []
  | (_, v) :: rest => stringLeaves v ++ stringLeavesPairs rest

def stringLeavesItems : List PyVal → List String
  | [] => []
  | v :: rest => stringLeaves v ++ stringLeavesItems rest

end

/-- Reachability of a subvalue through mapping values and list items. -/
inductive Reaches : PyVal → PyVal → Prop where
  | refl (v : PyVal) : Reaches v v
  | dictStep {kvs : List (String × PyVal)} {k : String} {v w : PyVal} :
      (k, v) ∈ kvs → Reaches v w → Reaches (PyVal.dict kvs) w
  | listStep {xs : List PyVal} {v w : PyVal} :
      v ∈ xs → Reaches v w → Reaches (PyVal.list xs) w

/-! ## Python string conversion (the f-string on an attachment id) -/

mutual

/-- Python `repr` of a value, as used by `str` on container elements
(string escaping inside repr is not modelled; no claim exercises it). -/
def pyReprOf : PyVal → String
  | PyVal.none => "None"
  | PyVal.bool b => if b then "True" else "False"
  | PyVal.int n => toString n
  | PyVal.str s => "\x27" ++ s ++ "\x27"
  | PyVal.list xs => "[" ++ pyReprList xs ++ "]"
  | PyVal.dict kvs => "\x7b" ++ pyReprPairs kvs ++ "\x7d"

def pyReprList : List PyVal → String
  | [] => ""
  | [v] => pyReprOf v
  | v :: rest => pyReprOf v ++ ", " ++ pyReprList rest

def pyReprPairs : List (String × PyVal) → String
  | [] => ""
  | [(k, v)] => "\x27" ++ k ++ "\x27: " ++ pyReprOf v
  | (k, v) :: rest => "\x27" ++ k ++ "\x27: " ++ pyReprOf v ++ ", " ++ pyReprPairs rest

end

/-- Python `str` of a value (what an f-string interpolates). -/
def pyStrOf : PyVal → String
  | PyVal.str s => s
  | v => pyReprOf v

/-! ## Generic attribute scan, attachment synthesis
(`_extract_from_data_attributes`, lines 161-191) -/

/-- The local helper `build_attachment_url`. -/
def build_attachment_url (join : String → String → String) (base : String)
    (attach_id : PyVal) : String :=
  join base ("/index.php?controller=attachment&id_attachment=" ++ pyStrOf attach_id)

/-- The id chosen for one attachment entry:
`att.get("id_attachment") or att.get("id")` (absent keys give None). -/
def attGetId (att : List (String × PyVal)) : PyVal :=
  let g1 := (dictGet att "id_attachment").getD PyVal.none
  if g1.truthy then g1 else (dictGet att "id").getD PyVal.none

/-- The loop over the `attachments` list (lines 176-180).  An entry
that is not a mapping makes `att.get` raise AttributeError, which the
surrounding `except Exception: pass` turns into abandoning the rest of
the walk; URLs already added to the set are kept. -/
def attachmentLoop (join : String → String → String) (base : String) :
    List PyVal → List String
  | [] => []
  | PyVal.dict att :: rest =>
    (let att_id := attGetId att
     if att_id.truthy then [build_attachment_url join base att_id] else [])
    ++ attachmentLoop join base rest
  | _ :: _ => []

/-- URLs synthesized from one attribute value already parsed as JSON
(the `isinstance(data, dict) and "attachments" in data and
isinstance(data["attachments"], list)` guard of line 175). -/
def attachmentUrlsFromData (join : String → String → String) (base : String)
    (data : PyVal) : List String :=
  match data with
  | PyVal.dict kvs =>
    match dictGet kvs "attachments" with
    | some (PyVal.list atts) => attachmentLoop join base atts
    | _ => []
  | _ => []

/-! ## Helper lemmas -/

lemma infix_of_suffix {α : Type} {t s : List α} (h : t <:+ s) : t <:+: s := by
  obtain ⟨u, rfl⟩ := h
  exact ⟨u, [], by simp⟩

lemma infix_rev {α : Type} {t s : List α} (h : t <:+: s) :
    t.reverse <:+: s.reverse := by
  obtain ⟨a, b, rfl⟩ := h
  exact ⟨b.reverse, a.reverse, by simp⟩

lemma infix_dropWhile_of_neg {α : Type} (p : α → Bool) {t s : List α}
    (ht : t ≠ []) (hall : ∀ c ∈ t, p c = false) (h : t <:+: s) :
    t <:+: s.dropWhile p := by
  obtain ⟨a, b, rfl⟩ := h
  induction a with
  | nil =>
    obtain ⟨c, t', rfl⟩ := List.exists_cons_of_ne_nil ht
    have hc : p c = false := hall c (List.mem_cons_self c t')
    simp only [List.nil_append, List.cons_append, List.dropWhile_cons, hc]
    exact ⟨[], b, by simp⟩
  | cons x a' ih =>
    simp only [List.cons_append, List.dropWhile_cons]
    by_cases hx : p x
    · simpa [hx] using ih
    · simp only [hx, if_neg, Bool.false_eq_true, if_false]
      exact ⟨x :: a', b, by simp⟩

lemma pyIn_pyStrip {sub s : String} (hne : sub.data ≠ [])
    (hall : ∀ c ∈ sub.data, pySpace c = false) (h : pyIn sub s = true) :
    pyIn sub (pyStrip s) = true := by
  have h1 : sub.data <:+: s.data := of_decide_eq_true h
  have h2 := infix_dropWhile_of_neg pySpace hne hall h1
  have h3 := infix_rev h2
  have h4 := infix_dropWhile_of_neg pySpace
    (by simpa using hne) (fun c hc => hall c (List.mem_reverse.mp hc)) h3
  have h5 := infix_rev h4
  rw [List.reverse_reverse] at h5
  exact decide_eq_true h5

lemma pyIn_of_pyEndsWith {s t : String} (h : pyEndsWith s t = true) :
    pyIn t s = true :=
  decide_eq_true (infix_of_suffix (of_decide_eq_true h))

/-! ## Claims -/

/-- C6 (confirmed): every URL string containing both the substring
"controller=attachment" and the substring "id_attachment=" is
classified as a PDF link by `_is_pdf_link`, regardless of any file
extension. -/
theorem C6_attachment_controller_rule (s : String)
    (h1 : pyIn "controller=attachment" s = true)
    (h2 : pyIn "id_attachment=" s = true) :
    _is_pdf_link (PyVal.str s) = some true := by
  have hs1 : pyIn "controller=attachment" (pyStrip s) = true :=
    pyIn_pyStrip (by decide) (by decide) h1
  have hs2 : pyIn "id_attachment=" (pyStrip s) = true :=
    pyIn_pyStrip (by decide) (by decide) h2
  unfold _is_pdf_link
  simp [hs1, hs2]

/-- Witness for C6 at a concrete attachment-controller URL without a
file extension. -/
theorem C6_witness :
    _is_pdf_link
      (PyVal.str "https://x.test/index.php?controller=attachment&id_attachment=9")
      = some true :=
  C6_attachment_controller_rule _ (by decide) (by decide)

/-- C1 counterexample: the relative URL "report.pdf" has a path that
ends in ".pdf" (case-insensitively), yet `_is_pdf_link` returns false
for it, because the extension branch also requires the string to start
with "http" or "/". -/
theorem C1_counterexample :
    (urlparseOpt "report.pdf").map ParseResult.path = some "report.pdf"
    ∧ pyEndsWith (pyLower "report.pdf") ".pdf" = true
    ∧ _is_pdf_link (PyVal.str "report.pdf") = some false := by
  refine ⟨by decide, by decide, by decide⟩

/-- C1 as amended: `is_pdf_url` of the detective variant accepts every
parseable URL whose path ends in ".pdf" case-insensitively; the
harvester classifier `_is_pdf_link` accepts such URLs only when the
stripped string additionally starts with "http" or "/". -/
theorem C1_pdf_path_suffix_amended :
    (∀ (u : String) (p : ParseResult), urlparseOpt u = some p →
        pyEndsWith (pyLower p.path) ".pdf" = true → is_pdf_url u = some true)
    ∧ (∀ (s : String) (q : ParseResult),
        (pyStartsWith (pyStrip s) "http" || pyStartsWith (pyStrip s) "/") = true →
        urlparseOpt (pyStrip s) = some q →
        pyEndsWith (pyLower q.path) ".pdf" = true →
        _is_pdf_link (PyVal.str s) = some true) := by
  constructor
  · intro u p hp hpdf
    unfold is_pdf_url
    rw [hp]
    simp [pyIn_of_pyEndsWith hpdf]
  · intro s q hstart hq hpdf
    unfold _is_pdf_link
    by_cases hatt :
        (pyIn "controller=attachment" (pyStrip s)
          && pyIn "id_attachment=" (pyStrip s)) = true
    · simp [hatt]
    · simp only [hatt, Bool.false_eq_true, if_false, hstart, if_true]
      rw [hq]
      simp [hpdf]

/-- Witness for the amended C1 at concrete absolute and root-relative
URLs. -/
theorem C1_witness :
    is_pdf_url "https://x.test/docs/a.PDF" = some true
    ∧ _is_pdf_link (PyVal.str "/docs/a.PDF") = some true :=
  ⟨C1_pdf_path_suffix_amended.1 "https://x.test/docs/a.PDF"
      ⟨"https", "x.test", "/docs/a.PDF", "", "", ""⟩ (by decide) (by decide),
   C1_pdf_path_suffix_amended.2 "/docs/a.PDF"
      ⟨"", "", "/docs/a.PDF", "", "", ""⟩ (by decide) (by decide) (by decide)⟩

/-- Parsing fails exactly on a mismatched square bracket in the
network location (the modelled ValueError of CPython urlsplit). -/
lemma urlparse_none_iff (s : String) :
    urlparseOpt s = Option.none ↔ bracketMismatch (netlocOf s) = true := by
  unfold urlparseOpt urlsplitOpt netlocOf
  by_cases h : bracketMismatch (splitSchemeNetloc s.data).2.1
  · simp [h]
  · simp only [h, Bool.false_eq_true, if_false]
    split <;> simp [h]

/-- C9 counterexample: on the string "http://[" the classifier does
not return a boolean — `urlparse` raises ValueError (Invalid IPv6 URL),
modelled as `none`. -/
theorem C9_counterexample :
    _is_pdf_link (PyVal.str "http://[") = Option.none := by decide

/-- C9 as amended: `_is_pdf_link` returns false for every non-string
input without raising; for string inputs it returns a boolean except
when the network location of the stripped string carries a mismatched
square bracket, in which case `urlparse` raises ValueError. -/
theorem C9_classifier_totality_amended :
    (∀ v : PyVal, v.isStr = false → _is_pdf_link v = some false)
    ∧ (∀ s : String, _is_pdf_link (PyVal.str s) = Option.none →
        bracketMismatch (netlocOf (pyStrip s)) = true) := by
  constructor
  · intro v hv
    cases v <;> first
      | rfl
      | simp [PyVal.isStr] at hv
  · intro s hnone
    unfold _is_pdf_link at hnone
    by_cases hatt :
        (pyIn "controller=attachment" (pyStrip s)
          && pyIn "id_attachment=" (pyStrip s)) = true
    · simp [hatt] at hnone
    · simp only [hatt, Bool.false_eq_true, if_false] at hnone
      by_cases hstart :
          (pyStartsWith (pyStrip s) "http" || pyStartsWith (pyStrip s) "/") = true
      · simp only [hstart, if_true] at hnone
        rcases hp : urlparseOpt (pyStrip s) with _ | r
        · exact (urlparse_none_iff (pyStrip s)).mp hp
        · rw [hp] at hnone
          simp at hnone
      · simp [hstart] at hnone

/-- Witness for the amended C9 at a concrete non-string input. -/
theorem C9_witness : _is_pdf_link (PyVal.int 3) = some false :=
  C9_classifier_totality_amended.1 (PyVal.int 3) rfl

/-- C2 (confirmed): once the filename generation and the HTTP fetch
themselves succeed, `_download_pdf_advanced` accepts the downloaded
bytes exactly when they begin with the 4-byte magic header "%PDF" and
are at least 1000 bytes long; in particular every byte string starting
with "%PDF" but shorter than 1000 bytes is rejected, and every byte
string not starting with "%PDF" is rejected. -/
theorem C2_signature_validator (fetch : String → Option (List Nat))
    (pdf_url title : String) (now : Nat) (content : List Nat) (fn : String)
    (hfn : genFilename pdf_url title now = some fn)
    (hfetch : fetch pdf_url = some content) :
    (_download_pdf_advanced fetch pdf_url title now).ok = true
      ↔ (pdfMagic <+: content ∧ 1000 ≤ content.length) := by
  unfold _download_pdf_advanced
  rw [hfn, hfetch]
  by_cases hm : pdfMagic <+: content
  · by_cases hl : content.length < 1000
    · simp [hm, hl, DownloadResult.ok]
      try omega
    · simp [hm, hl, DownloadResult.ok]
      try omega
  · simp [hm, DownloadResult.ok]
    try omega

/-- Witness for C2: a 1000-byte body with the PDF magic header is
accepted. -/
theorem C2_witness :
    (_download_pdf_advanced (fun _ => some (pdfMagic ++ List.replicate 996 32))
        "https://x.test/a.pdf" "doc" 5).ok = true
      ↔ (pdfMagic <+: (pdfMagic ++ List.replicate 996 32)
         ∧ 1000 ≤ (pdfMagic ++ List.replicate 996 32).length) :=
  C2_signature_validator _ _ _ _ _ "doc_5.pdf" (by decide) rfl

/-- All rows of an upserted table carrying the upserted key are exactly
the new row. -/
lemma filter_key_upsert (db : List HarvestRecord) (r : HarvestRecord) :
    (upsert db r).filter (fun q => q.url == r.url) = [r] := by
  unfold upsert
  rw [List.filter_append]
  have h1 : (db.filter (fun q => q.url != r.url)).filter
      (fun q => q.url == r.url) = [] := by
    rw [List.filter_filter]
    apply List.filter_eq_nil_iff.mpr
    intro a _
    cases h : a.url == r.url
    · simp [h]
    · simp [h]
      exact eq_of_beq h
  rw [h1]
  simp

/-- An upsert keeps the per-url row count at most one. -/
lemma countP_upsert_le (db : List HarvestRecord) (r : HarvestRecord) (u : String)
    (h : db.countP (fun q => q.url == u) ≤ 1) :
    (upsert db r).countP (fun q => q.url == u) ≤ 1 := by
  unfold upsert
  rw [List.countP_append]
  by_cases hu : r.url = u
  · have h0 : (db.filter (fun q => q.url != r.url)).countP
        (fun q => q.url == u) = 0 := by
      rw [List.countP_eq_zero]
      intro a ha
      have h2 := (List.mem_filter.mp ha).2
      simp only [bne_iff_ne, ne_eq] at h2
      simp [hu ▸ h2]
    simp [h0, hu, List.countP_cons]
  · have h1 : ([r].countP (fun q => q.url == u)) = 0 := by
      simp [List.countP_cons, hu]
    have h2 : (db.filter (fun q => q.url != r.url)).countP
        (fun q => q.url == u) ≤ db.countP (fun q => q.url == u) := by
      rw [List.countP_filter]
      exact List.countP_mono_left (fun a _ hb => by simp_all)
    omega

/-- Folding upserts over any starting table with the invariant keeps
the invariant. -/
lemma countP_foldl_upsert (rs : List HarvestRecord) (db : List HarvestRecord)
    (u : String) (h : db.countP (fun q => q.url == u) ≤ 1) :
    (rs.foldl upsert db).countP (fun q => q.url == u) ≤ 1 := by
  induction rs generalizing db with
  | nil => exact h
  | cons r rest ih => exact ih _ (countP_upsert_le _ _ _ h)

/-- C3 (confirmed): after two successive upserts of rows with the same
url, the table holds exactly one row for that url and its fields are
those of the second row; and any sequence of upserts starting from the
empty table leaves at most one row per url. -/
theorem C3_upsert_determinism (db : List HarvestRecord) (r1 r2 : HarvestRecord)
    (rs : List HarvestRecord) (u : String) (_hurl : r1.url = r2.url) :
    (upsert (upsert db r1) r2).filter (fun q => q.url == r2.url) = [r2]
    ∧ (rs.foldl upsert []).countP (fun q => q.url == u) ≤ 1 :=
  ⟨filter_key_upsert (upsert db r1) r2,
   countP_foldl_upsert rs [] u (by simp)⟩

/-- A concrete failed record used to exercise the upsert claims. -/
def recordFailedExample : HarvestRecord :=
  { url := "https://x.test/a.pdf", filename := "t1", file_size := 0,
    file_hash := "h1", source_feed := "streamlit_app", harvest_date := 1,
    status := "failed", article_title := "t1", article_url := "a1" }

/-- A concrete success record with the same url as
`recordFailedExample`. -/
def recordSuccessExample : HarvestRecord :=
  { url := "https://x.test/a.pdf", filename := "t2", file_size := 0,
    file_hash := "h2", source_feed := "streamlit_app", harvest_date := 2,
    status := "success", article_title := "t2", article_url := "a2" }

/-- Witness for C3 at two concrete same-url records. -/
theorem C3_witness :
    (upsert (upsert [] recordFailedExample) recordSuccessExample).filter
        (fun q => q.url == recordSuccessExample.url) = [recordSuccessExample]
    ∧ (List.foldl upsert [] [recordFailedExample, recordSuccessExample]).countP
        (fun q => q.url == "https://x.test/a.pdf") ≤ 1 :=
  C3_upsert_determinism [] recordFailedExample recordSuccessExample
    [recordFailedExample, recordSuccessExample] "https://x.test/a.pdf" rfl

/-- C4 counterexample: a candidate URL that is in the in-run
`failed_urls` set but not in `downloaded_urls` is downloaded again —
the loop guard of line 106 tests only `downloaded_urls`. -/
theorem C4_counterexample :
    "https://x.test/a.pdf" ∈ (ScanState.mk [] ["https://x.test/a.pdf"] [] [] []).failed_urls
    ∧ (processCandidate (fun _ => Option.none) (fun _ => "h") "t" "a" 0
        (ScanState.mk [] ["https://x.test/a.pdf"] [] [] [])
        "https://x.test/a.pdf").attempted = ["https://x.test/a.pdf"] := by
  refine ⟨by decide, by decide⟩

/-- C4 as amended: the scan skips a candidate exactly when it is in the
in-run `downloaded_urls` set; membership in `failed_urls` alone does
not suppress the download attempt. -/
theorem C4_dedup_amended (fetch : String → Option (List Nat)) (md5 : String → String)
    (title article_url : String) (now : Nat) (st : ScanState) (u : String) :
    (u ∈ st.downloaded_urls → processCandidate fetch md5 title article_url now st u = st)
    ∧ (u ∉ st.downloaded_urls →
        (processCandidate fetch md5 title article_url now st u).attempted
          = st.attempted ++ [u]) := by
  constructor
  · intro h
    simp [processCandidate, h]
  · intro h
    by_cases hd : (_download_pdf_advanced fetch u title now).ok
    <;> simp [processCandidate, h, hd]

/-- Witness for the amended C4: an already-downloaded URL is skipped
and a fresh URL is attempted. -/
theorem C4_witness :
    processCandidate (fun _ => Option.none) (fun _ => "h") "t" "a" 0
        (ScanState.mk ["https://x.test/a.pdf"] [] [] [] []) "https://x.test/a.pdf"
      = ScanState.mk ["https://x.test/a.pdf"] [] [] [] []
    ∧ (processCandidate (fun _ => Option.none) (fun _ => "h") "t" "a" 0
        (ScanState.mk [] [] [] [] []) "https://x.test/b.pdf").attempted
      = [] ++ ["https://x.test/b.pdf"] :=
  ⟨(C4_dedup_amended _ _ _ _ _ _ _).1 (by decide),
   (C4_dedup_amended _ _ _ _ _ _ _).2 (by decide)⟩


/-- C7 (confirmed): when the downloaded bytes are rejected by the
signature check (wrong magic header, or size below the 1000-byte
floor), no file for that URL is left on disk (the too-small file is
written and then removed; the wrong-magic case writes nothing), the
two rejection modes are reported through distinct outcomes (distinct
warning messages in the source), and the per-candidate scan step
upserts a record with status "failed" for that URL. -/
theorem C7_signature_rejection_effect (fetch : String → Option (List Nat))
    (md5 : String → String) (title article_url : String) (now : Nat)
    (st : ScanState) (u : String) (content : List Nat) (fn : String)
    (hnd : u ∉ st.downloaded_urls)
    (hfetch : fetch u = some content)
    (hfn : genFilename u title now = some fn)
    (hrej : ¬ (pdfMagic <+: content) ∨ content.length < 1000) :
    (_download_pdf_advanced fetch u title now).fileOnDisk = Option.none
    ∧ (if pdfMagic <+: content
       then _download_pdf_advanced fetch u title now
              = DownloadResult.rejectedTooSmall fn
       else _download_pdf_advanced fetch u title now
              = DownloadResult.rejectedNonPdf fn)
    ∧ DownloadResult.rejectedTooSmall fn ≠ DownloadResult.rejectedNonPdf fn
    ∧ (∃ r ∈ (processCandidate fetch md5 title article_url now st u).db,
        r.url = u ∧ r.status = "failed") := by
  have hres : (if pdfMagic <+: content
       then _download_pdf_advanced fetch u title now
              = DownloadResult.rejectedTooSmall fn
       else _download_pdf_advanced fetch u title now
              = DownloadResult.rejectedNonPdf fn) := by
    unfold _download_pdf_advanced
    rw [hfn, hfetch]
    by_cases hm : pdfMagic <+: content
    · have hl : content.length < 1000 := by
        rcases hrej with h | h
        · exact absurd hm h
        · exact h
      simp [hm, hl]
    · simp [hm]
  have hnotok : (_download_pdf_advanced fetch u title now).ok = false := by
    by_cases hm : pdfMagic <+: content
    · simp only [hm, if_true] at hres
      rw [hres]
      rfl
    · simp only [hm, if_false] at hres
      rw [hres]
      rfl
  refine ⟨?_, hres, by simp, ?_⟩
  · by_cases hm : pdfMagic <+: content
    · simp only [hm, if_true] at hres
      rw [hres]
      rfl
    · simp only [hm, if_false] at hres
      rw [hres]
      rfl
  · refine ⟨{ url := u, filename := title, file_size := 0, file_hash := md5 u,
              source_feed := "streamlit_app", harvest_date := now,
              status := "failed", article_title := title,
              article_url := article_url }, ?_, rfl, rfl⟩
    simp only [processCandidate, hnd, if_false, hnotok, Bool.false_eq_true]
    simp [_log_to_database, upsert]

/-- Witness for C7: HTML bytes for a URL classified as PDF are
rejected with the wrong-magic outcome, nothing is on disk, and the
scan step records a failed row. -/
theorem C7_witness :
    (_download_pdf_advanced (fun _ => some [60, 104, 116, 109, 108, 62])
        "https://x.test/a.pdf" "t" 7).fileOnDisk = Option.none
    ∧ (if pdfMagic <+: [60, 104, 116, 109, 108, 62]
       then _download_pdf_advanced (fun _ => some [60, 104, 116, 109, 108, 62])
              "https://x.test/a.pdf" "t" 7
              = DownloadResult.rejectedTooSmall "t_7.pdf"
       else _download_pdf_advanced (fun _ => some [60, 104, 116, 109, 108, 62])
              "https://x.test/a.pdf" "t" 7
              = DownloadResult.rejectedNonPdf "t_7.pdf")
    ∧ DownloadResult.rejectedTooSmall "t_7.pdf" ≠ DownloadResult.rejectedNonPdf "t_7.pdf"
    ∧ (∃ r ∈ (processCandidate (fun _ => some [60, 104, 116, 109, 108, 62])
          (fun _ => "h") "t" "https://x.test/article" 7
          (ScanState.mk [] [] [] [] []) "https://x.test/a.pdf").db,
        r.url = "https://x.test/a.pdf" ∧ r.status = "failed") :=
  C7_signature_rejection_effect (fun _ => some [60, 104, 116, 109, 108, 62])
    (fun _ => "h") "t" "https://x.test/article" 7 (ScanState.mk [] [] [] [] [])
    "https://x.test/a.pdf" [60, 104, 116, 109, 108, 62] "t_7.pdf"
    (by decide) rfl (by decide) (Or.inl (by decide))

set_option maxRecDepth 8192 in
/-- C8 counterexample: a successful download generates the on-disk
filename "Rapport_100.pdf" from the sanitized title and the time
token, but the upserted success record stores the raw title "Rapport"
in its filename field — the generated filename is never passed to
`_log_to_database`. -/
theorem C8_counterexample :
    _download_pdf_advanced (fun _ => some (pdfMagic ++ List.replicate 996 32))
        "https://x.test/files/doc42.pdf" "Rapport" 100
      = DownloadResult.success "Rapport_100.pdf"
    ∧ (processCandidate (fun _ => some (pdfMagic ++ List.replicate 996 32))
        (fun _ => "h") "Rapport" "https://x.test/article" 100
        (ScanState.mk [] [] [] [] []) "https://x.test/files/doc42.pdf").db
      = [{ url := "https://x.test/files/doc42.pdf", filename := "Rapport",
           file_size := 0, file_hash := "h", source_feed := "streamlit_app",
           harvest_date := 100, status := "success", article_title := "Rapport",
           article_url := "https://x.test/article" }]
    ∧ ("Rapport" : String) ≠ "Rapport_100.pdf" := by
  refine ⟨rfl, rfl, by decide⟩

/-- C8 as amended: for a candidate whose download and validation
succeed, the upserted success record stores the raw article title in
its filename field (and the title again in article_title); the
generated on-disk filename is not persisted. -/
theorem C8_filename_persistence_amended (fetch : String → Option (List Nat))
    (md5 : String → String) (title article_url : String) (now : Nat)
    (st : ScanState) (u fn : String)
    (hnd : u ∉ st.downloaded_urls)
    (hok : _download_pdf_advanced fetch u title now = DownloadResult.success fn) :
    ((processCandidate fetch md5 title article_url now st u).db).filter
        (fun r => r.url == u)
      = [{ url := u, filename := title, file_size := 0, file_hash := md5 u,
           source_feed := "streamlit_app", harvest_date := now,
           status := "success", article_title := title,
           article_url := article_url }] := by
  have hok2 : (_download_pdf_advanced fetch u title now).ok = true := by
    rw [hok]
    rfl
  simp only [processCandidate, hnd, if_false, hok2, if_true, _log_to_database]
  exact filter_key_upsert st.db
    { url := u, filename := title, file_size := 0, file_hash := md5 u,
      source_feed := "streamlit_app", harvest_date := now, status := "success",
      article_title := title, article_url := article_url }

set_option maxRecDepth 8192 in
/-- Witness for the amended C8 at a concrete successful download. -/
theorem C8_witness :
    ((processCandidate (fun _ => some (pdfMagic ++ List.replicate 996 32))
        (fun _ => "h") "Rapport" "https://x.test/article" 100
        (ScanState.mk [] [] [] [] []) "https://x.test/files/doc42.pdf").db).filter
        (fun r => r.url == "https://x.test/files/doc42.pdf")
      = [{ url := "https://x.test/files/doc42.pdf", filename := "Rapport",
           file_size := 0, file_hash := "h", source_feed := "streamlit_app",
           harvest_date := 100, status := "success", article_title := "Rapport",
           article_url := "https://x.test/article" }] :=
  C8_filename_persistence_amended (fun _ => some (pdfMagic ++ List.replicate 996 32))
    (fun _ => "h") "Rapport" "https://x.test/article" 100
    (ScanState.mk [] [] [] [] []) "https://x.test/files/doc42.pdf"
    "Rapport_100.pdf" (by decide) rfl

/-- A mapping value that is a ".pdf" string is collected by the
pairs walk. -/
lemma find_pairs_entry (join : String → String → String) (base : String)
    (kvs : List (String × PyVal)) (k s : String)
    (hmem : (k, PyVal.str s) ∈ kvs) (hpdf : pyIn ".pdf" (pyLower s) = true) :
    join base s ∈ _find_pdf_in_json_pairs join base kvs := by
  induction kvs with
  | nil => cases hmem
  | cons kv rest ih =>
    rcases List.mem_cons.mp hmem with h | h
    · subst h
      simp [ _find_pdf_in_json_pairs, hpdf]
    · obtain ⟨k2, v2⟩ := kv
      cases v2 <;>
        (simp only [ _find_pdf_in_json_pairs]
         exact List.mem_append_right _ (ih h))

/-- Everything found under one mapping value is found by the pairs
walk over the whole mapping. -/
lemma find_pairs_superset (join : String → String → String) (base : String)
    (kvs : List (String × PyVal)) (k' : String) (v : PyVal)
    (hmem : (k', v) ∈ kvs) (x : String)
    (hx : x ∈ _find_pdf_in_json join base v) :
    x ∈ _find_pdf_in_json_pairs join base kvs := by
  induction kvs with
  | nil => cases hmem
  | cons kv rest ih =>
    rcases List.mem_cons.mp hmem with h | h
    · subst h
      cases v with
      | str s =>
        have h0 : _find_pdf_in_json join base (PyVal.str s) = [] := by
          simp [ _find_pdf_in_json]
        rw [h0] at hx
        cases hx
      | none =>
        simp only [ _find_pdf_in_json_pairs]
        exact List.mem_append_left _ hx
      | bool b =>
        simp only [ _find_pdf_in_json_pairs]
        exact List.mem_append_left _ hx
      | int n =>
        simp only [ _find_pdf_in_json_pairs]
        exact List.mem_append_left _ hx
      | list xs =>
        simp only [ _find_pdf_in_json_pairs]
        exact List.mem_append_left _ hx
      | dict kvs2 =>
        simp only [ _find_pdf_in_json_pairs]
        exact List.mem_append_left _ hx
    · obtain ⟨k2, v2⟩ := kv
      cases v2 <;>
        (simp only [ _find_pdf_in_json_pairs]
         exact List.mem_append_right _ (ih h))

/-- Everything found under one list item is found by the items walk
over the whole list. -/
lemma find_items_superset (join : String → String → String) (base : String)
    (xs : List PyVal) (v : PyVal) (hmem : v ∈ xs) (x : String)
    (hx : x ∈ _find_pdf_in_json join base v) :
    x ∈ _find_pdf_in_json_items join base xs := by
  induction xs with
  | nil => cases hmem
  | cons w rest ih =>
    rcases List.mem_cons.mp hmem with h | h
    · subst h
      simp only [ _find_pdf_in_json_items]
      exact List.mem_append_left _ hx
    · simp only [ _find_pdf_in_json_items]
      exact List.mem_append_right _ (ih h)

/-- A ".pdf" string sitting in mapping-value position anywhere under
the root is collected by the walk. -/
lemma find_reaches_dict_value (join : String → String → String) (base : String)
    {root w : PyVal} (hreach : Reaches root w) :
    ∀ (kvs : List (String × PyVal)) (k s : String),
      w = PyVal.dict kvs → (k, PyVal.str s) ∈ kvs →
      pyIn ".pdf" (pyLower s) = true →
      join base s ∈ _find_pdf_in_json join base root := by
  induction hreach with
  | refl v =>
    intro kvs k s hw hmem hpdf
    subst hw
    have h1 := find_pairs_entry join base kvs k s hmem hpdf
    simpa [ _find_pdf_in_json] using h1
  | dictStep hkv _ ih =>
    intro kvs k s hw hmem hpdf
    have h1 := ih kvs k s hw hmem hpdf
    have h2 := find_pairs_superset join base _ _ _ hkv _ h1
    simpa [ _find_pdf_in_json] using h2
  | listStep hv _ ih =>
    intro kvs k s hw hmem hpdf
    have h1 := ih kvs k s hw hmem hpdf
    have h2 := find_items_superset join base _ _ hv _ h1
    simpa [ _find_pdf_in_json] using h2

/-- C5 counterexample: the string leaf "/docs/a.pdf" contains ".pdf"
and sits inside a list that is a mapping value, yet `_find_pdf_in_json`
returns nothing — a string reached as a list item falls into the
walk's catch-all and is never collected. -/
theorem C5_counterexample :
    "/docs/a.pdf" ∈ stringLeaves
        (PyVal.dict [("files", PyVal.list [PyVal.str "/docs/a.pdf"])])
    ∧ pyIn ".pdf" (pyLower "/docs/a.pdf") = true
    ∧ _find_pdf_in_json (fun _ s => s) "https://x.test/p"
        (PyVal.dict [("files", PyVal.list [PyVal.str "/docs/a.pdf"])]) = [] := by
  refine ⟨?_, by decide, ?_⟩
  · simp [stringLeaves, stringLeavesPairs, stringLeavesItems]
  · simp [ _find_pdf_in_json, _find_pdf_in_json_pairs, _find_pdf_in_json_items]

/-- C5 as amended: the structured-data walk collects
urljoin(base, leaf) for every ".pdf" string leaf that occurs as a
mapping value (at any depth reachable through mapping values and list
items); string leaves that are list elements, or the root itself, are
not collected. -/
theorem C5_structured_data_amended (join : String → String → String)
    (base : String) (root : PyVal) (kvs : List (String × PyVal)) (k s : String)
    (hreach : Reaches root (PyVal.dict kvs))
    (hmem : (k, PyVal.str s) ∈ kvs)
    (hpdf : pyIn ".pdf" (pyLower s) = true) :
    join base s ∈ _find_pdf_in_json join base root :=
  find_reaches_dict_value join base hreach kvs k s rfl hmem hpdf

/-- Witness for the amended C5 at a concrete one-entry mapping. -/
theorem C5_witness :
    "x.pdf" ∈ _find_pdf_in_json (fun _ s => s) "https://x.test/p"
        (PyVal.dict [("u", PyVal.str "x.pdf")]) :=
  C5_structured_data_amended (fun _ s => s) "https://x.test/p"
    (PyVal.dict [("u", PyVal.str "x.pdf")]) [("u", PyVal.str "x.pdf")]
    "u" "x.pdf" (Reaches.refl _) (List.mem_cons_self _ _) (by decide)

/-- C10 counterexample: in an attachments list whose first entry is
the bare number 42 and whose second entry is a mapping with the truthy
id 7, no URL at all is synthesized — `att.get` on the non-mapping
first entry raises AttributeError and the surrounding except abandons
the loop, although the claim requires the second entry to yield its
attachment URL. -/
theorem C10_counterexample :
    attachmentUrlsFromData (fun _ s => s) "https://x.test"
        (PyVal.dict [("attachments",
          PyVal.list [PyVal.int 42, PyVal.dict [("id_attachment", PyVal.int 7)]])])
      = []
    ∧ (attGetId [("id_attachment", PyVal.int 7)]).truthy = true
    ∧ build_attachment_url (fun _ s => s) "https://x.test" (PyVal.int 7)
        ∉ ([] : List String) := by
  refine ⟨rfl, rfl, by simp⟩

/-- C10 as amended: provided every entry of the attachments list is a
mapping, exactly the entries whose chosen id
(`att.get("id_attachment") or att.get("id")`) is truthy synthesize
the attachment-controller URL; entries whose id is absent, empty or 0
synthesize nothing.  (A non-mapping entry instead aborts the walk from
that entry on, as the counterexample shows.) -/
theorem C10_attachment_synthesis_amended (join : String → String → String)
    (base : String) (atts : List PyVal)
    (hdicts : ∀ a ∈ atts, a.isDict = true) (u : String) :
    u ∈ attachmentLoop join base atts
      ↔ ∃ kvs, PyVal.dict kvs ∈ atts ∧ (attGetId kvs).truthy = true
          ∧ u = build_attachment_url join base (attGetId kvs) := by
  induction atts with
  | nil => simp [attachmentLoop]
  | cons a rest ih =>
    have hd := hdicts a (List.mem_cons_self a rest)
    have ih2 := ih (fun x hx => hdicts x (List.mem_cons_of_mem a hx))
    cases a with
    | dict att =>
      have hsplit : attachmentLoop join base (PyVal.dict att :: rest)
          = (if (attGetId att).truthy = true then
               [build_attachment_url join base (attGetId att)] else [])
            ++ attachmentLoop join base rest := by
        simp [attachmentLoop]
      rw [hsplit]
      by_cases ht : (attGetId att).truthy = true
      · rw [if_pos ht]
        simp only [List.mem_append, List.mem_cons, List.not_mem_nil, or_false,
          ih2]
        constructor
        · rintro (h | h)
          · exact ⟨att, Or.inl rfl, ht, h⟩
          · obtain ⟨kvs, hk, h1, h2⟩ := h
            exact ⟨kvs, Or.inr hk, h1, h2⟩
        · rintro ⟨kvs, hk | hk, h1, h2⟩
          · injection hk with h3
            subst h3
            exact Or.inl h2
          · exact Or.inr ⟨kvs, hk, h1, h2⟩
      · rw [if_neg ht, List.nil_append, ih2]
        simp only [List.mem_cons]
        constructor
        · rintro ⟨kvs, hk, h1, h2⟩
          exact ⟨kvs, Or.inr hk, h1, h2⟩
        · rintro ⟨kvs, hk | hk, h1, h2⟩
          · injection hk with h3
            subst h3
            exact absurd h1 ht
          · exact ⟨kvs, hk, h1, h2⟩
    | none => simp [PyVal.isDict] at hd
    | bool b => simp [PyVal.isDict] at hd
    | int n => simp [PyVal.isDict] at hd
    | str s => simp [PyVal.isDict] at hd
    | list xs => simp [PyVal.isDict] at hd

/-- Witness for the amended C10 at a one-entry attachments list with a
truthy id. -/
theorem C10_witness :
    ("https://x.test/index.php?controller=attachment&id_attachment=7"
        ∈ attachmentLoop (fun b s => b ++ s) "https://x.test"
            [PyVal.dict [("id_attachment", PyVal.int 7)]]
      ↔ ∃ kvs, PyVal.dict kvs ∈ [PyVal.dict [("id_attachment", PyVal.int 7)]]
          ∧ (attGetId kvs).truthy = true
          ∧ "https://x.test/index.php?controller=attachment&id_attachment=7"
              = build_attachment_url (fun b s => b ++ s) "https://x.test"
                  (attGetId kvs)) :=
  C10_attachment_synthesis_amended (fun b s => b ++ s) "https://x.test"
    [PyVal.dict [("id_attachment", PyVal.int 7)]] (by decide)
    "https://x.test/index.php?controller=attachment&id_attachment=7"
